import Mathlib

/-!
Verification of the posture-detection backend (`backend/main.py`).

The backend's core logic is a geometry utility (`calculate_angle`), two
rule evaluators (`check_squat_rules`, `check_sitting_rules`) over MediaPipe
pose landmarks, and two request pipelines (`analyze_video`, `analyze_frame`).

Embedding choices, mirroring the Python source:

* Python floats are idealised as real numbers `ℝ`.
* `calculate_angle` divides by the product of the two vector norms.  In
  NumPy a zero denominator produces `nan` (not an exception); `nan`
  propagates through `np.arccos`/`np.degrees`, and every comparison with
  `nan` is `False`, so a rule whose angle is `nan` never fires.  We embed
  this by returning `Option ℝ`: `none` models the `nan` outcome (either
  vector has zero length), and each rule only fires on a `some` angle.
* A MediaPipe landmark list is embedded as `List Landmark`; the Python
  indexing `landmarks[i]` that raises `IndexError` out of range becomes
  `List.get?`.  In both evaluators all landmark lookups happen before any
  rule runs, and the surrounding `try/except: pass` returns the issues
  accumulated so far; hence a failed lookup yields the empty issue list,
  which the `match` on all lookups reproduces exactly.
* Issue strings carry one embedded integer (`int(angle)`); we embed an
  issue as an inductive value whose constructor is the message template
  and whose argument is that integer, with `Issue.render` giving the
  literal Python string.
* MediaPipe's pose detector and OpenCV decoding are external collaborators:
  a frame is abstracted to its detection outcome `Option LandmarkSet`
  (`none` = no body detected), and an uploaded file to whether decoding
  succeeds.
-/

/-- A detected body-joint position, as produced by MediaPipe: normalized
`x`, `y` coordinates and a visibility score. -/
structure Landmark where
  x : ℝ
  y : ℝ
  visibility : ℝ

/-- The landmark list attached to one detected body (33 entries in the
MediaPipe schema, but the evaluators only index into it). -/
abbrev LandmarkSet := List Landmark

/-- MediaPipe `PoseLandmark` indices used by the evaluators. -/
def LEFT_EAR : ℕ := 7
def LEFT_SHOULDER : ℕ := 11
def LEFT_HIP : ℕ := 23
def LEFT_KNEE : ℕ := 25
def LEFT_ANKLE : ℕ := 27
def LEFT_FOOT_INDEX : ℕ := 31

/-- Vector difference `u - v` of two 2D points, as the NumPy subtraction
`a - b` in `calculate_angle`. -/
def vsub (u v : ℝ × ℝ) : ℝ × ℝ := (u.1 - v.1, u.2 - v.2)

/-- Dot product of two 2D vectors (`np.dot`). -/
def vdot (u v : ℝ × ℝ) : ℝ := u.1 * v.1 + u.2 * v.2

/-- Euclidean norm of a 2D vector (`np.linalg.norm`). -/
noncomputable def vnorm (v : ℝ × ℝ) : ℝ := Real.sqrt (v.1 ^ 2 + v.2 ^ 2)

/-- Python's `int()` truncation toward zero. -/
noncomputable def py_int (r : ℝ) : ℤ := if 0 ≤ r then ⌊r⌋ else ⌈r⌉

/-- The angle (in degrees) at vertex `b` of the triple `(a, b, c)`:
`cos θ = (ba·bc)/(‖ba‖‖bc‖)`, clipped to `[-1, 1]` (`np.clip`), then
`arccos` and radians-to-degrees.  Returns `none` when either vector has
zero length: in NumPy that division yields `nan`, which poisons the
result; see the file comment. -/
noncomputable def calculate_angle (a b c : ℝ × ℝ) : Option ℝ :=
  if vnorm (vsub a b) = 0 ∨ vnorm (vsub c b) = 0 then none
  else
    some (Real.arccos
      (max (-1) (min (vdot (vsub a b) (vsub c b) / (vnorm (vsub a b) * vnorm (vsub c b))) 1))
      * 180 / Real.pi)

/-- One posture issue: the constructor is the message template, the
argument the integer embedded in it (`int(angle)`). -/
inductive Issue where
  | kneeOverToe : Issue
  | backAngleTooSmall : ℤ → Issue
  | neckBendTooLarge : ℤ → Issue
  | backNotStraight : ℤ → Issue
deriving DecidableEq

/-- The literal Python message string of an issue. -/
def Issue.render : Issue → String
  | .kneeOverToe => "Left knee over toe"
  | .backAngleTooSmall d => "Back angle too small: " ++ toString d ++ "°"
  | .neckBendTooLarge d => "Neck bend too large: " ++ toString d ++ "°"
  | .backNotStraight d => "Back not straight: " ++ toString d ++ "°"

/-- The squat-rule evaluator `check_squat_rules`.  All five landmark
lookups precede every rule, so a missing landmark triggers the Python
`IndexError` caught by `except: pass` with `issues` still empty; the
all-or-nothing `match` reproduces that.  Rule order: knee-over-toe, then
back-angle. -/
noncomputable def check_squat_rules (landmarks : LandmarkSet) : List Issue :=
  match landmarks.get? LEFT_KNEE, landmarks.get? LEFT_ANKLE, landmarks.get? LEFT_HIP,
      landmarks.get? LEFT_SHOULDER, landmarks.get? LEFT_FOOT_INDEX with
  | some left_knee, some _left_ankle, some left_hip, some left_shoulder, some left_toe =>
    (if left_knee.x > left_toe.x then [Issue.kneeOverToe] else []) ++
    (match calculate_angle (left_shoulder.x, left_shoulder.y) (left_hip.x, left_hip.y)
        (left_knee.x, left_knee.y) with
     | some back_angle =>
        if back_angle < 150 then [Issue.backAngleTooSmall (py_int back_angle)] else []
     | none => [])
  | _, _, _, _, _ => []

/-- The sitting-rule evaluator `check_sitting_rules`.  Neck rule: angle at
the EAR between the shoulder and the synthetic point
`(shoulder.x, shoulder.y - 1)`; back rule: angle at the hip between the
shoulder and `(hip.x, hip.y - 1)`. -/
noncomputable def check_sitting_rules (landmarks : LandmarkSet) : List Issue :=
  match landmarks.get? LEFT_SHOULDER, landmarks.get? LEFT_EAR, landmarks.get? LEFT_HIP with
  | some left_shoulder, some left_ear, some left_hip =>
    (match calculate_angle (left_shoulder.x, left_shoulder.y) (left_ear.x, left_ear.y)
        (left_shoulder.x, left_shoulder.y - 1) with
     | some neck_angle =>
        if neck_angle > 30 then [Issue.neckBendTooLarge (py_int neck_angle)] else []
     | none => []) ++
    (match calculate_angle (left_shoulder.x, left_shoulder.y) (left_hip.x, left_hip.y)
        (left_hip.x, left_hip.y - 1) with
     | some back_angle =>
        if |back_angle - 180| > 20 then [Issue.backNotStraight (py_int back_angle)] else []
     | none => [])
  | _, _, _ => []

/-- Dispatch on the `activity` string, as in both endpoint bodies:
`"squat"` and `"sitting"` select their evaluator, anything else leaves
`issues = []`. -/
noncomputable def activity_issues (activity : String) (landmarks : LandmarkSet) : List Issue :=
  if activity = "squat" then check_squat_rules landmarks
  else if activity = "sitting" then check_sitting_rules landmarks
  else []

/-- The per-frame pipeline shared by both endpoints: given the detection
outcome of one image (`none` = no body), produce `(issues, keypoints)`.
When a body is detected the keypoints list is the landmark list itself
(the Python code copies `x`, `y`, `visibility` of every landmark). -/
noncomputable def frame_output (activity : String) (det : Option LandmarkSet) :
    List Issue × List Landmark :=
  match det with
  | none => ([], [])
  | some lms => (activity_issues activity lms, lms)

/-- One entry of the `frames` list returned by `analyze_video`. -/
structure FrameResult where
  frame : ℕ
  issues : List Issue
  keypoints : List Landmark

/-- The `analyze_video` frame loop: `frame_idx` starts at 0 and increases
by 1 per decoded frame; a frame is processed iff `frame_idx % 5 == 0`
(`frame_skip = 5`), appending a `FrameResult` with that index. -/
noncomputable def video_loop (activity : String) :
    ℕ → List (Option LandmarkSet) → List FrameResult
  | _, [] => []
  | frame_idx, det :: rest =>
    if frame_idx % 5 = 0 then
      { frame := frame_idx,
        issues := (frame_output activity det).1,
        keypoints := (frame_output activity det).2 } :: video_loop activity (frame_idx + 1) rest
    else
      video_loop activity (frame_idx + 1) rest

/-- The `analyze_video` pipeline on a decoded video, abstracted to the
per-frame detection outcomes. -/
noncomputable def analyze_video (activity : String) (dets : List (Option LandmarkSet)) :
    List FrameResult :=
  video_loop activity 0 dets

/-- Outcome of one run of the `analyze_frame` endpoint: the response if the
handler returned normally (`none` = an exception escaped), and whether
`os.remove(temp_path)` executed. -/
structure FrameEndpointOutcome where
  response : Option (List Issue × List Landmark)
  temp_removed : Bool

/-- The `analyze_frame` endpoint's control flow around the temp file.  The
upload is staged to a temp file; `cv2.imread` returns `None` on an
unreadable image (modelled as `decoded = none`), after which
`cv2.cvtColor(None, ...)` raises, and the `os.remove(temp_path)` line —
which only comes after analysis, with no try/finally — never runs. -/
noncomputable def analyze_frame (activity : String) (decoded : Option (Option LandmarkSet)) :
    FrameEndpointOutcome :=
  match decoded with
  | none => { response := none, temp_removed := false }
  | some det => { response := some (frame_output activity det), temp_removed := true }

/-! ## Basic facts about the geometry utility -/

/-- The norm of a 2D vector vanishes exactly on the zero vector. -/
theorem vnorm_eq_zero_iff (v : ℝ × ℝ) : vnorm v = 0 ↔ v = (0, 0) := by
  unfold vnorm
  rw [Real.sqrt_eq_zero (by positivity)]
  constructor
  · intro h
    have h1 : v.1 = 0 := by nlinarith [sq_nonneg v.1, sq_nonneg v.2]
    have h2 : v.2 = 0 := by nlinarith [sq_nonneg v.1, sq_nonneg v.2]
    exact Prod.ext h1 h2
  · intro h
    rw [h]
    norm_num

/-- Evaluation lemma for `vnorm` at a vector of known norm. -/
theorem vnorm_eval (x y r : ℝ) (hr : 0 ≤ r) (h : x ^ 2 + y ^ 2 = r ^ 2) :
    vnorm (x, y) = r := by
  unfold vnorm
  rw [show ((x, y) : ℝ × ℝ).1 = x from rfl, show ((x, y) : ℝ × ℝ).2 = y from rfl, h,
    Real.sqrt_sq hr]

/-- When the cosine quotient is already in `[-1, 1]`, `calculate_angle`
returns the arc-cosine of that quotient, converted to degrees. -/
theorem angle_from_cos (a b c : ℝ × ℝ) (x : ℝ)
    (h1 : vnorm (vsub a b) ≠ 0) (h2 : vnorm (vsub c b) ≠ 0)
    (hx : vdot (vsub a b) (vsub c b) / (vnorm (vsub a b) * vnorm (vsub c b)) = x)
    (hx1 : -1 ≤ x) (hx2 : x ≤ 1) :
    calculate_angle a b c = some (Real.arccos x * 180 / Real.pi) := by
  unfold calculate_angle
  rw [if_neg (by tauto), hx, min_eq_left hx2, max_eq_right hx1]

/-- Degrees conversion of the radian value `π`. -/
theorem deg_of_pi : Real.pi * 180 / Real.pi = 180 := by
  field_simp

/-- Degrees conversion of the radian value `0`. -/
theorem deg_of_zero : (0 : ℝ) * 180 / Real.pi = 0 := by
  norm_num

/-- Degrees conversion of the radian value `π / 2`. -/
theorem deg_of_half_pi : Real.pi / 2 * 180 / Real.pi = 90 := by
  field_simp
  ring

/-- Python `int()` on a nonnegative integer-valued real. -/
theorem py_int_natCast (n : ℕ) : py_int (n : ℝ) = n := by
  unfold py_int
  rw [if_pos (by positivity)]
  exact_mod_cast Int.floor_natCast n

/-! ## Concrete landmark sets for test evaluations -/

/-- A placeholder landmark for the indices the evaluators never read. -/
def pad : Landmark := ⟨0, 0, 0⟩

/-- A 32-entry landmark list with the five joints the squat evaluator
reads placed at their MediaPipe indices (11, 23, 25, 27, 31). -/
def squat_lms (shoulder hip knee ankle toe : Landmark) : LandmarkSet :=
  [pad, pad, pad, pad, pad, pad, pad, pad, pad, pad, pad,
   shoulder, pad, pad, pad, pad, pad, pad, pad, pad, pad, pad, pad,
   hip, pad, knee, pad, ankle, pad, pad, pad, toe]

/-- A 24-entry landmark list with the three joints the sitting evaluator
reads placed at their MediaPipe indices (7, 11, 23). -/
def sitting_lms (ear shoulder hip : Landmark) : LandmarkSet :=
  [pad, pad, pad, pad, pad, pad, pad, ear, pad, pad, pad,
   shoulder, pad, pad, pad, pad, pad, pad, pad, pad, pad, pad, pad, hip]

/-! ## Concrete angle evaluations used by several claims -/

/-- The back angle of the straight-line configuration shoulder `(0,0)`,
hip `(0,1)`, knee `(0,2)` is 180 degrees. -/
theorem angle_line_180 : calculate_angle ((0 : ℝ), 0) (0, 1) (0, 2) = some 180 := by
  have n1 : vnorm (vsub ((0 : ℝ), 0) (0, 1)) = 1 := by
    have e : vsub ((0 : ℝ), 0) (0, 1) = (0, -1) := by norm_num [vsub]
    rw [e]
    exact vnorm_eval 0 (-1) 1 (by norm_num) (by norm_num)
  have n2 : vnorm (vsub ((0 : ℝ), 2) (0, 1)) = 1 := by
    have e : vsub ((0 : ℝ), 2) (0, 1) = (0, 1) := by norm_num [vsub]
    rw [e]
    exact vnorm_eval 0 1 1 (by norm_num) (by norm_num)
  have hq : vdot (vsub ((0 : ℝ), 0) (0, 1)) (vsub ((0 : ℝ), 2) (0, 1)) /
      (vnorm (vsub ((0 : ℝ), 0) (0, 1)) * vnorm (vsub ((0 : ℝ), 2) (0, 1))) = -1 := by
    rw [n1, n2]
    norm_num [vdot, vsub]
  rw [angle_from_cos _ _ _ (-1) (by rw [n1]; norm_num) (by rw [n2]; norm_num) hq
    (by norm_num) (by norm_num), Real.arccos_neg_one, deg_of_pi]

/-- The back angle of the bent configuration shoulder `(0,0)`, hip `(0,1)`,
knee `(1,1)` is 90 degrees. -/
theorem angle_bent_90 : calculate_angle ((0 : ℝ), 0) (0, 1) (1, 1) = some 90 := by
  have n1 : vnorm (vsub ((0 : ℝ), 0) (0, 1)) = 1 := by
    have e : vsub ((0 : ℝ), 0) (0, 1) = (0, -1) := by norm_num [vsub]
    rw [e]
    exact vnorm_eval 0 (-1) 1 (by norm_num) (by norm_num)
  have n2 : vnorm (vsub ((1 : ℝ), 1) (0, 1)) = 1 := by
    have e : vsub ((1 : ℝ), 1) (0, 1) = (1, 0) := by norm_num [vsub]
    rw [e]
    exact vnorm_eval 1 0 1 (by norm_num) (by norm_num)
  have hq : vdot (vsub ((0 : ℝ), 0) (0, 1)) (vsub ((1 : ℝ), 1) (0, 1)) /
      (vnorm (vsub ((0 : ℝ), 0) (0, 1)) * vnorm (vsub ((1 : ℝ), 1) (0, 1))) = 0 := by
    rw [n1, n2]
    norm_num [vdot, vsub]
  rw [angle_from_cos _ _ _ 0 (by rw [n1]; norm_num) (by rw [n2]; norm_num) hq
    (by norm_num) (by norm_num), Real.arccos_zero, deg_of_half_pi]

/-- The neck angle when the ear `(0, 1/2)` sits directly above the
shoulder `(0, 1)`: the synthetic vertical point is `(0, 0)`, and the angle
AT THE EAR between shoulder and that point is 180 degrees. -/
theorem angle_ear_vertical_180 :
    calculate_angle ((0 : ℝ), 1) (0, 1 / 2) (0, 1 - 1) = some 180 := by
  have n1 : vnorm (vsub ((0 : ℝ), 1) (0, 1 / 2)) = 1 / 2 := by
    have e : vsub ((0 : ℝ), 1) (0, 1 / 2) = (0, 1 / 2) := by norm_num [vsub]
    rw [e]
    exact vnorm_eval 0 (1 / 2) (1 / 2) (by norm_num) (by norm_num)
  have n2 : vnorm (vsub ((0 : ℝ), 1 - 1) (0, 1 / 2)) = 1 / 2 := by
    have e : vsub ((0 : ℝ), 1 - 1) (0, 1 / 2) = (0, -(1 / 2)) := by norm_num [vsub]
    rw [e]
    exact vnorm_eval 0 (-(1 / 2)) (1 / 2) (by norm_num) (by norm_num)
  have hq : vdot (vsub ((0 : ℝ), 1) (0, 1 / 2)) (vsub ((0 : ℝ), 1 - 1) (0, 1 / 2)) /
      (vnorm (vsub ((0 : ℝ), 1) (0, 1 / 2)) * vnorm (vsub ((0 : ℝ), 1 - 1) (0, 1 / 2))) = -1 := by
    rw [n1, n2]
    norm_num [vdot, vsub]
  rw [angle_from_cos _ _ _ (-1) (by rw [n1]; norm_num) (by rw [n2]; norm_num) hq
    (by norm_num) (by norm_num), Real.arccos_neg_one, deg_of_pi]

/-- The sitting back angle for shoulder `(0, 1)`, hip `(0, 2)`: the
synthetic point is `(0, 1)` and the angle at the hip is 0 degrees. -/
theorem angle_hip_vertical_0 :
    calculate_angle ((0 : ℝ), 1) (0, 2) (0, 2 - 1) = some 0 := by
  have n1 : vnorm (vsub ((0 : ℝ), 1) (0, 2)) = 1 := by
    have e : vsub ((0 : ℝ), 1) (0, 2) = (0, -1) := by norm_num [vsub]
    rw [e]
    exact vnorm_eval 0 (-1) 1 (by norm_num) (by norm_num)
  have n2 : vnorm (vsub ((0 : ℝ), 2 - 1) (0, 2)) = 1 := by
    have e : vsub ((0 : ℝ), 2 - 1) (0, 2) = (0, -1) := by norm_num [vsub]
    rw [e]
    exact vnorm_eval 0 (-1) 1 (by norm_num) (by norm_num)
  have hq : vdot (vsub ((0 : ℝ), 1) (0, 2)) (vsub ((0 : ℝ), 2 - 1) (0, 2)) /
      (vnorm (vsub ((0 : ℝ), 1) (0, 2)) * vnorm (vsub ((0 : ℝ), 2 - 1) (0, 2))) = 1 := by
    rw [n1, n2]
    norm_num [vdot, vsub]
  rw [angle_from_cos _ _ _ 1 (by rw [n1]; norm_num) (by rw [n2]; norm_num) hq
    (by norm_num) (by norm_num), Real.arccos_one, deg_of_zero]

/-! ## Evaluator unfolding helpers -/

/-- Unfolding of the squat evaluator once all five lookups succeed. -/
theorem check_squat_rules_eval (lms : LandmarkSet) (knee ankle hip shoulder toe : Landmark)
    (hk : lms.get? LEFT_KNEE = some knee) (ha : lms.get? LEFT_ANKLE = some ankle)
    (hh : lms.get? LEFT_HIP = some hip) (hs : lms.get? LEFT_SHOULDER = some shoulder)
    (ht : lms.get? LEFT_FOOT_INDEX = some toe) :
    check_squat_rules lms =
      (if knee.x > toe.x then [Issue.kneeOverToe] else []) ++
      (match calculate_angle (shoulder.x, shoulder.y) (hip.x, hip.y) (knee.x, knee.y) with
       | some back_angle =>
          if back_angle < 150 then [Issue.backAngleTooSmall (py_int back_angle)] else []
       | none => []) := by
  unfold check_squat_rules
  rw [hk, ha, hh, hs, ht]

/-- Unfolding of the sitting evaluator once all three lookups succeed. -/
theorem check_sitting_rules_eval (lms : LandmarkSet) (shoulder ear hip : Landmark)
    (hs : lms.get? LEFT_SHOULDER = some shoulder) (he : lms.get? LEFT_EAR = some ear)
    (hh : lms.get? LEFT_HIP = some hip) :
    check_sitting_rules lms =
      (match calculate_angle (shoulder.x, shoulder.y) (ear.x, ear.y)
          (shoulder.x, shoulder.y - 1) with
       | some neck_angle =>
          if neck_angle > 30 then [Issue.neckBendTooLarge (py_int neck_angle)] else []
       | none => []) ++
      (match calculate_angle (shoulder.x, shoulder.y) (hip.x, hip.y) (hip.x, hip.y - 1) with
       | some back_angle =>
          if |back_angle - 180| > 20 then [Issue.backNotStraight (py_int back_angle)] else []
       | none => []) := by
  unfold check_sitting_rules
  rw [hs, he, hh]

/-- A failed lookup among the squat evaluator's five required joints
yields the empty issue list. -/
theorem check_squat_rules_empty_of_none (lms : LandmarkSet)
    (h : lms.get? LEFT_KNEE = none ∨ lms.get? LEFT_ANKLE = none ∨ lms.get? LEFT_HIP = none ∨
      lms.get? LEFT_SHOULDER = none ∨ lms.get? LEFT_FOOT_INDEX = none) :
    check_squat_rules lms = [] := by
  unfold check_squat_rules
  cases hk : lms.get? LEFT_KNEE <;> cases ha : lms.get? LEFT_ANKLE <;>
    cases hh : lms.get? LEFT_HIP <;> cases hs : lms.get? LEFT_SHOULDER <;>
    cases ht : lms.get? LEFT_FOOT_INDEX
  all_goals try rfl
  exfalso
  rcases h with h | h | h | h | h
  · rw [h] at hk; exact Option.noConfusion hk
  · rw [h] at ha; exact Option.noConfusion ha
  · rw [h] at hh; exact Option.noConfusion hh
  · rw [h] at hs; exact Option.noConfusion hs
  · rw [h] at ht; exact Option.noConfusion ht

/-- A failed lookup among the sitting evaluator's three required joints
yields the empty issue list. -/
theorem check_sitting_rules_empty_of_none (lms : LandmarkSet)
    (h : lms.get? LEFT_SHOULDER = none ∨ lms.get? LEFT_EAR = none ∨
      lms.get? LEFT_HIP = none) :
    check_sitting_rules lms = [] := by
  unfold check_sitting_rules
  cases hs : lms.get? LEFT_SHOULDER <;> cases he : lms.get? LEFT_EAR <;>
    cases hh : lms.get? LEFT_HIP
  all_goals try rfl
  exfalso
  rcases h with h | h | h
  · rw [h] at hs; exact Option.noConfusion hs
  · rw [h] at he; exact Option.noConfusion he
  · rw [h] at hh; exact Option.noConfusion hh

/-- Rule evaluation on an empty landmark list produces no issues, for any
activity. -/
theorem activity_issues_nil (activity : String) : activity_issues activity [] = [] := by
  unfold activity_issues
  split_ifs with h1 h2
  · exact check_squat_rules_empty_of_none [] (Or.inl rfl)
  · exact check_sitting_rules_empty_of_none [] (Or.inl rfl)
  · rfl

/-! ## Video loop structure -/

/-- The frame indices emitted by the video loop started at index `n` are
exactly the multiples of 5 among `n, n+1, ..., n + length - 1`. -/
theorem video_loop_map_frame (activity : String) (dets : List (Option LandmarkSet)) :
    ∀ n : ℕ, (video_loop activity n dets).map FrameResult.frame =
      (List.range' n dets.length).filter (fun i => i % 5 == 0) := by
  induction dets with
  | nil => intro n; rfl
  | cons d rest ih =>
    intro n
    by_cases h5 : n % 5 = 0 <;>
      simp [video_loop, h5, List.range'_succ, List.filter_cons, ih (n + 1)]

/-- Every result of the video loop arises from `frame_output` on one of
the input detections. -/
theorem video_loop_mem (activity : String) (dets : List (Option LandmarkSet)) :
    ∀ (n : ℕ) (r : FrameResult), r ∈ video_loop activity n dets →
      ∃ det ∈ dets, r.issues = (frame_output activity det).1 ∧
        r.keypoints = (frame_output activity det).2 := by
  induction dets with
  | nil => intro n r hr; simp [video_loop] at hr
  | cons d rest ih =>
    intro n r hr
    unfold video_loop at hr
    by_cases h5 : n % 5 = 0
    · rw [if_pos h5] at hr
      rcases List.mem_cons.mp hr with h | h
      · exact ⟨d, List.mem_cons_self d rest, by rw [h], by rw [h]⟩
      · obtain ⟨det, hd, h1, h2⟩ := ih (n + 1) r h
        exact ⟨det, List.mem_cons_of_mem d hd, h1, h2⟩
    · rw [if_neg h5] at hr
      obtain ⟨det, hd, h1, h2⟩ := ih (n + 1) r hr
      exact ⟨det, List.mem_cons_of_mem d hd, h1, h2⟩

/-- Multiples of 5 below `n`, as a filtered range and as a scaled range. -/
theorem filter_mod5_range (n : ℕ) :
    (List.range n).filter (fun i => i % 5 == 0) =
      (List.range ((n + 4) / 5)).map (fun k => 5 * k) := by
  induction n with
  | zero => rfl
  | succ n ih =>
    rw [List.range_succ, List.filter_append, ih]
    by_cases h5 : n % 5 = 0
    · have hk : (n + 1 + 4) / 5 = (n + 4) / 5 + 1 := by omega
      rw [hk, List.range_succ, List.map_append]
      congr 1
      simp [h5]
      omega
    · have hk : (n + 1 + 4) / 5 = (n + 4) / 5 := by omega
      rw [hk]
      have : (n % 5 == 0) = false := by simp [h5]
      simp [List.filter_cons, this]

/-- Consecutive multiples of 5 differ by exactly 5. -/
theorem chain_map_mul5 (m : ℕ) :
    List.Chain' (fun x y => y = x + 5) ((List.range m).map (fun k => 5 * k)) := by
  rw [List.chain'_map]
  cases m with
  | zero => simp
  | succ m =>
    rw [List.chain'_range_succ]
    intro k hk
    omega

/-! ## Claim theorems -/

/-- C1: for both the squat and the sitting evaluator, if any required
landmark is missing from the landmark list, the evaluator returns the
empty issue list.  Both evaluators are total Lean functions, so no
exception escapes; the geometry computation itself never raises (a zero
denominator yields NumPy `nan`, embedded as `none`, never an exception). -/
theorem evaluators_swallow_missing_landmarks (lms : LandmarkSet) :
    ((lms.get? LEFT_KNEE = none ∨ lms.get? LEFT_ANKLE = none ∨ lms.get? LEFT_HIP = none ∨
        lms.get? LEFT_SHOULDER = none ∨ lms.get? LEFT_FOOT_INDEX = none) →
      check_squat_rules lms = []) ∧
    ((lms.get? LEFT_SHOULDER = none ∨ lms.get? LEFT_EAR = none ∨ lms.get? LEFT_HIP = none) →
      check_sitting_rules lms = []) :=
  ⟨check_squat_rules_empty_of_none lms, check_sitting_rules_empty_of_none lms⟩

/-- Witness for C1: a one-landmark list is missing every required joint,
and both evaluators return `[]` on it. -/
theorem evaluators_swallow_missing_landmarks_witness :
    check_squat_rules [pad] = [] ∧ check_sitting_rules [pad] = [] :=
  ⟨(evaluators_swallow_missing_landmarks [pad]).1 (Or.inl rfl),
   (evaluators_swallow_missing_landmarks [pad]).2 (Or.inl rfl)⟩

/-- C3: on any triple whose two arm vectors are non-zero, the angle
function returns a value, and that value lies in `[0, 180]` degrees. -/
theorem calculate_angle_in_range (a b c : ℝ × ℝ)
    (h1 : vsub a b ≠ (0, 0)) (h2 : vsub c b ≠ (0, 0)) :
    ∃ θ, calculate_angle a b c = some θ ∧ 0 ≤ θ ∧ θ ≤ 180 := by
  have hn1 : vnorm (vsub a b) ≠ 0 := fun h => h1 ((vnorm_eq_zero_iff _).mp h)
  have hn2 : vnorm (vsub c b) ≠ 0 := fun h => h2 ((vnorm_eq_zero_iff _).mp h)
  refine ⟨Real.arccos (max (-1) (min (vdot (vsub a b) (vsub c b) /
      (vnorm (vsub a b) * vnorm (vsub c b))) 1)) * 180 / Real.pi, ?_, ?_, ?_⟩
  · unfold calculate_angle
    rw [if_neg (by tauto)]
  · exact div_nonneg (mul_nonneg (Real.arccos_nonneg _) (by norm_num)) Real.pi_pos.le
  · rw [div_le_iff₀ Real.pi_pos]
    nlinarith [Real.arccos_le_pi (max (-1) (min (vdot (vsub a b) (vsub c b) /
      (vnorm (vsub a b) * vnorm (vsub c b))) 1))]

/-- Witness for C3 at the right-angle triple `(1,0)`, `(0,0)`, `(0,1)`. -/
theorem calculate_angle_in_range_witness :
    ∃ θ, calculate_angle ((1 : ℝ), 0) (0, 0) (0, 1) = some θ ∧ 0 ≤ θ ∧ θ ≤ 180 :=
  calculate_angle_in_range (1, 0) (0, 0) (0, 1)
    (by norm_num [vsub, Prod.mk.injEq]) (by norm_num [vsub, Prod.mk.injEq])

/-- C5: with all required squat landmarks present, the squat evaluator
reports "Left knee over toe" exactly when `knee.x > toe.x`. -/
theorem knee_over_toe_iff (lms : LandmarkSet) (knee ankle hip shoulder toe : Landmark)
    (hk : lms.get? LEFT_KNEE = some knee) (ha : lms.get? LEFT_ANKLE = some ankle)
    (hh : lms.get? LEFT_HIP = some hip) (hs : lms.get? LEFT_SHOULDER = some shoulder)
    (ht : lms.get? LEFT_FOOT_INDEX = some toe) :
    Issue.kneeOverToe ∈ check_squat_rules lms ↔ knee.x > toe.x := by
  rw [check_squat_rules_eval lms knee ankle hip shoulder toe hk ha hh hs ht, List.mem_append]
  cases hca : calculate_angle (shoulder.x, shoulder.y) (hip.x, hip.y) (knee.x, knee.y) with
  | none => by_cases hx : knee.x > toe.x <;> simp [hx]
  | some θ => by_cases hx : knee.x > toe.x <;> by_cases hθ : θ < 150 <;> simp [hx, hθ]

/-- Witness for C5: knee at `x = 0.6` with toe at `x = 0.5` produces the
issue; knee at `x = 0.4` does not. -/
theorem knee_over_toe_iff_witness :
    Issue.kneeOverToe ∈ check_squat_rules (squat_lms pad pad ⟨0.6, 0, 0⟩ pad ⟨0.5, 0, 0⟩) ∧
    Issue.kneeOverToe ∉ check_squat_rules (squat_lms pad pad ⟨0.4, 0, 0⟩ pad ⟨0.5, 0, 0⟩) := by
  constructor
  · exact (knee_over_toe_iff (squat_lms pad pad ⟨0.6, 0, 0⟩ pad ⟨0.5, 0, 0⟩)
      ⟨0.6, 0, 0⟩ pad pad pad ⟨0.5, 0, 0⟩ rfl rfl rfl rfl rfl).mpr (by norm_num)
  · intro hmem
    exact absurd ((knee_over_toe_iff (squat_lms pad pad ⟨0.4, 0, 0⟩ pad ⟨0.5, 0, 0⟩)
      ⟨0.4, 0, 0⟩ pad pad pad ⟨0.5, 0, 0⟩ rfl rfl rfl rfl rfl).mp hmem) (by norm_num)

/-- C8: any activity other than "squat" and "sitting" yields the empty
issue list in the frame pipeline, in every frame of the video pipeline,
and in the frame endpoint's response; all are total, so no error. -/
theorem unknown_activity_no_issues (activity : String)
    (h1 : activity ≠ "squat") (h2 : activity ≠ "sitting") :
    (∀ det, (frame_output activity det).1 = []) ∧
    (∀ dets r, r ∈ analyze_video activity dets → r.issues = []) ∧
    (∀ decoded resp, (analyze_frame activity decoded).response = some resp → resp.1 = []) := by
  have hai : ∀ lms, activity_issues activity lms = [] := by
    intro lms
    unfold activity_issues
    rw [if_neg h1, if_neg h2]
  have hfo : ∀ det, (frame_output activity det).1 = [] := by
    intro det
    cases det with
    | none => rfl
    | some lms => exact hai lms
  refine ⟨hfo, ?_, ?_⟩
  · intro dets r hr
    obtain ⟨det, _, hiss, _⟩ := video_loop_mem activity dets 0 r hr
    rw [hiss, hfo det]
  · intro decoded resp hresp
    cases decoded with
    | none => exact Option.noConfusion hresp
    | some det =>
      injection hresp with h
      rw [← h]
      exact hfo det

/-- Witness for C8 at the unknown activity "yoga". -/
theorem unknown_activity_no_issues_witness :
    (frame_output "yoga" (some [pad])).1 = [] :=
  (unknown_activity_no_issues "yoga" (by decide) (by decide)).1 (some [pad])

/-- C9 is FALSE of the code: when `cv2.imread` cannot decode the uploaded
image (modelled as `decoded = none`), `cv2.cvtColor` raises and the
handler aborts before the `os.remove(temp_path)` line, so the temp file
is NOT removed on that exit path. -/
theorem temp_not_removed_on_decode_failure :
    (analyze_frame "squat" none).temp_removed = false ∧
    (analyze_frame "squat" none).response = none :=
  ⟨rfl, rfl⟩

/-- C10: the angle function is invariant under translating all three
points by the same vector. -/
theorem calculate_angle_translation_invariant (a b c t : ℝ × ℝ)
    (_h1 : vsub a b ≠ (0, 0)) (_h2 : vsub c b ≠ (0, 0)) :
    calculate_angle (a.1 + t.1, a.2 + t.2) (b.1 + t.1, b.2 + t.2) (c.1 + t.1, c.2 + t.2) =
      calculate_angle a b c := by
  have e1 : vsub (a.1 + t.1, a.2 + t.2) (b.1 + t.1, b.2 + t.2) = vsub a b := by
    simp only [vsub, Prod.mk.injEq]
    constructor <;> ring
  have e2 : vsub (c.1 + t.1, c.2 + t.2) (b.1 + t.1, b.2 + t.2) = vsub c b := by
    simp only [vsub, Prod.mk.injEq]
    constructor <;> ring
  unfold calculate_angle
  rw [e1, e2]

/-- Witness for C10: translating the right-angle triple by `(2, 3)`. -/
theorem calculate_angle_translation_invariant_witness :
    calculate_angle ((1 : ℝ) + 2, (0 : ℝ) + 3) ((0 : ℝ) + 2, (0 : ℝ) + 3)
        ((0 : ℝ) + 2, (1 : ℝ) + 3) =
      calculate_angle ((1 : ℝ), 0) (0, 0) (0, 1) :=
  calculate_angle_translation_invariant (1, 0) (0, 0) (0, 1) (2, 3)
    (by norm_num [vsub, Prod.mk.injEq]) (by norm_num [vsub, Prod.mk.injEq])

/-- C2: the video pipeline emits exactly the frames whose index is a
multiple of the stride 5, in input order: the emitted frame indices are
the filtered range, a 12-frame input yields exactly `[0, 5, 10]`, and
consecutive emitted indices increase by exactly the stride. -/
theorem video_sampling_stride :
    (∀ activity (dets : List (Option LandmarkSet)),
      (analyze_video activity dets).map FrameResult.frame =
        (List.range dets.length).filter (fun i => i % 5 == 0)) ∧
    (∀ activity (dets : List (Option LandmarkSet)), dets.length = 12 →
      (analyze_video activity dets).map FrameResult.frame = [0, 5, 10]) ∧
    (∀ activity (dets : List (Option LandmarkSet)),
      List.Chain' (fun r s => s.frame = r.frame + 5) (analyze_video activity dets)) := by
  have hmap : ∀ activity (dets : List (Option LandmarkSet)),
      (analyze_video activity dets).map FrameResult.frame =
        (List.range dets.length).filter (fun i => i % 5 == 0) := by
    intro activity dets
    unfold analyze_video
    rw [video_loop_map_frame activity dets 0, List.range_eq_range']
  refine ⟨hmap, ?_, ?_⟩
  · intro activity dets h12
    rw [hmap activity dets, h12]
    decide
  · intro activity dets
    have h := hmap activity dets
    rw [filter_mod5_range] at h
    have hc := chain_map_mul5 ((dets.length + 4) / 5)
    rw [← h] at hc
    exact (List.chain'_map FrameResult.frame).mp hc

/-- Witness for C2: a 12-frame input with no detections is sampled at
frames 0, 5 and 10. -/
theorem video_sampling_stride_witness :
    (analyze_video "squat" (List.replicate 12 none)).map FrameResult.frame = [0, 5, 10] :=
  video_sampling_stride.2.1 "squat" (List.replicate 12 none) (by simp)

/-- C4 is FALSE of the code: with the left ear directly above the left
shoulder (ear `(0, 1/2)`, shoulder `(0, 1)`, hip `(0, 2)`), the angle the
code computes AT THE EAR between the shoulder and the synthetic point
`(shoulder.x, shoulder.y - 1)` is 180 degrees, not ≈ 0, so the evaluator
emits "Neck bend too large: 180°" for a perfectly vertical neck (and
"Back not straight: 0°" for a perfectly vertical back). -/
theorem sitting_neck_vertical_ear_flags_issue :
    check_sitting_rules (sitting_lms ⟨0, 1 / 2, 0⟩ ⟨0, 1, 0⟩ ⟨0, 2, 0⟩) =
      [Issue.neckBendTooLarge 180, Issue.backNotStraight 0] := by
  rw [check_sitting_rules_eval (sitting_lms ⟨0, 1 / 2, 0⟩ ⟨0, 1, 0⟩ ⟨0, 2, 0⟩)
    ⟨0, 1, 0⟩ ⟨0, 1 / 2, 0⟩ ⟨0, 2, 0⟩ rfl rfl rfl]
  have hneck : calculate_angle ((⟨0, 1, 0⟩ : Landmark).x, (⟨0, 1, 0⟩ : Landmark).y)
      ((⟨0, 1 / 2, 0⟩ : Landmark).x, (⟨0, 1 / 2, 0⟩ : Landmark).y)
      ((⟨0, 1, 0⟩ : Landmark).x, (⟨0, 1, 0⟩ : Landmark).y - 1) = some 180 :=
    angle_ear_vertical_180
  have hback : calculate_angle ((⟨0, 1, 0⟩ : Landmark).x, (⟨0, 1, 0⟩ : Landmark).y)
      ((⟨0, 2, 0⟩ : Landmark).x, (⟨0, 2, 0⟩ : Landmark).y)
      ((⟨0, 2, 0⟩ : Landmark).x, (⟨0, 2, 0⟩ : Landmark).y - 1) = some 0 :=
    angle_hip_vertical_0
  rw [hneck, hback]
  have h180 : py_int (180 : ℝ) = 180 := by exact_mod_cast py_int_natCast 180
  have h0 : py_int (0 : ℝ) = 0 := by exact_mod_cast py_int_natCast 0
  show (if (180 : ℝ) > 30 then [Issue.neckBendTooLarge (py_int 180)] else []) ++
      (if |(0 : ℝ) - 180| > 20 then [Issue.backNotStraight (py_int 0)] else []) =
    [Issue.neckBendTooLarge 180, Issue.backNotStraight 0]
  rw [if_pos (by norm_num), if_pos (by rw [show (0 : ℝ) - 180 = -180 by norm_num, abs_neg,
    abs_of_nonneg (by norm_num : (0 : ℝ) ≤ 180)]; norm_num), h180, h0]
  rfl

/-- C6: with all required squat landmarks present and a well-defined back
angle θ at the hip between shoulder and knee, a "Back angle too small"
issue appears iff θ < 150; the straight configuration shoulder `(0,0)`,
hip `(0,1)`, knee `(0,2)` (angle 180) yields none, and the bent
configuration shoulder `(0,0)`, hip `(0,1)`, knee `(1,1)` (angle 90)
yields the issue carrying 90. -/
theorem back_angle_threshold_iff :
    (∀ (lms : LandmarkSet) (knee ankle hip shoulder toe : Landmark) (θ : ℝ),
        lms.get? LEFT_KNEE = some knee → lms.get? LEFT_ANKLE = some ankle →
        lms.get? LEFT_HIP = some hip → lms.get? LEFT_SHOULDER = some shoulder →
        lms.get? LEFT_FOOT_INDEX = some toe →
        calculate_angle (shoulder.x, shoulder.y) (hip.x, hip.y) (knee.x, knee.y) = some θ →
        ((∃ d, Issue.backAngleTooSmall d ∈ check_squat_rules lms) ↔ θ < 150)) ∧
    (∀ d, Issue.backAngleTooSmall d ∉
      check_squat_rules (squat_lms ⟨0, 0, 0⟩ ⟨0, 1, 0⟩ ⟨0, 2, 0⟩ pad ⟨3, 0, 0⟩)) ∧
    Issue.backAngleTooSmall 90 ∈
      check_squat_rules (squat_lms ⟨0, 0, 0⟩ ⟨0, 1, 0⟩ ⟨1, 1, 0⟩ pad ⟨3, 0, 0⟩) := by
  refine ⟨?_, ?_, ?_⟩
  · intro lms knee ankle hip shoulder toe θ hk ha hh hs ht hca
    rw [check_squat_rules_eval lms knee ankle hip shoulder toe hk ha hh hs ht, hca]
    by_cases hx : knee.x > toe.x <;> by_cases hθ : θ < 150 <;> simp [hx, hθ]
  · intro d hmem
    rw [check_squat_rules_eval (squat_lms ⟨0, 0, 0⟩ ⟨0, 1, 0⟩ ⟨0, 2, 0⟩ pad ⟨3, 0, 0⟩)
      ⟨0, 2, 0⟩ pad ⟨0, 1, 0⟩ ⟨0, 0, 0⟩ ⟨3, 0, 0⟩ rfl rfl rfl rfl rfl] at hmem
    have hca : calculate_angle ((⟨0, 0, 0⟩ : Landmark).x, (⟨0, 0, 0⟩ : Landmark).y)
        ((⟨0, 1, 0⟩ : Landmark).x, (⟨0, 1, 0⟩ : Landmark).y)
        ((⟨0, 2, 0⟩ : Landmark).x, (⟨0, 2, 0⟩ : Landmark).y) = some 180 :=
      angle_line_180
    rw [hca, if_neg (by norm_num)] at hmem
    have hmem' : Issue.backAngleTooSmall d ∈ ([] : List Issue) ++
        (if (180 : ℝ) < 150 then [Issue.backAngleTooSmall (py_int 180)] else []) := hmem
    rw [if_neg (by norm_num)] at hmem'
    simp at hmem'
  · rw [check_squat_rules_eval (squat_lms ⟨0, 0, 0⟩ ⟨0, 1, 0⟩ ⟨1, 1, 0⟩ pad ⟨3, 0, 0⟩)
      ⟨1, 1, 0⟩ pad ⟨0, 1, 0⟩ ⟨0, 0, 0⟩ ⟨3, 0, 0⟩ rfl rfl rfl rfl rfl]
    have hca : calculate_angle ((⟨0, 0, 0⟩ : Landmark).x, (⟨0, 0, 0⟩ : Landmark).y)
        ((⟨0, 1, 0⟩ : Landmark).x, (⟨0, 1, 0⟩ : Landmark).y)
        ((⟨1, 1, 0⟩ : Landmark).x, (⟨1, 1, 0⟩ : Landmark).y) = some 90 :=
      angle_bent_90
    have h90 : py_int (90 : ℝ) = 90 := by exact_mod_cast py_int_natCast 90
    rw [hca, if_neg (by norm_num)]
    show Issue.backAngleTooSmall 90 ∈ ([] : List Issue) ++
      (if (90 : ℝ) < 150 then [Issue.backAngleTooSmall (py_int 90)] else [])
    rw [if_pos (by norm_num), h90]
    simp

/-- Witness for C6: the general threshold rule applied to the bent
configuration, with back angle 90. -/
theorem back_angle_threshold_iff_witness :
    (∃ d, Issue.backAngleTooSmall d ∈
      check_squat_rules (squat_lms ⟨0, 0, 0⟩ ⟨0, 1, 0⟩ ⟨1, 1, 0⟩ pad ⟨3, 0, 0⟩)) ↔
      (90 : ℝ) < 150 :=
  back_angle_threshold_iff.1 (squat_lms ⟨0, 0, 0⟩ ⟨0, 1, 0⟩ ⟨1, 1, 0⟩ pad ⟨3, 0, 0⟩)
    ⟨1, 1, 0⟩ pad ⟨0, 1, 0⟩ ⟨0, 0, 0⟩ ⟨3, 0, 0⟩ 90 rfl rfl rfl rfl rfl angle_bent_90

/-- C7: keypoints are empty iff no body was detected (assuming, as the
MediaPipe schema guarantees, that a detection carries a nonempty landmark
list), and whenever keypoints are empty the issues are empty too — both
for the frame pipeline and for every frame of the video pipeline. -/
theorem keypoints_empty_iff_no_detection :
    (∀ activity det, (∀ lms, det = some lms → lms ≠ []) →
        (((frame_output activity det).2 = []) ↔ det = none) ∧
        ((frame_output activity det).2 = [] → (frame_output activity det).1 = [])) ∧
    (∀ activity (dets : List (Option LandmarkSet)) r, r ∈ analyze_video activity dets →
      r.keypoints = [] → r.issues = []) := by
  have key : ∀ activity det,
      (frame_output activity det).2 = [] → (frame_output activity det).1 = [] := by
    intro activity det
    cases det with
    | none => intro _; rfl
    | some lms =>
      intro hk
      have hnil : lms = [] := hk
      show activity_issues activity lms = []
      rw [hnil]
      exact activity_issues_nil activity
  constructor
  · intro activity det hne
    refine ⟨?_, key activity det⟩
    cases det with
    | none => simp [frame_output]
    | some lms =>
      constructor
      · intro hk
        exact absurd hk (hne lms rfl)
      · intro hcon
        exact Option.noConfusion hcon
  · intro activity dets r hr hk
    obtain ⟨det, _, hiss, hkp⟩ := video_loop_mem activity dets 0 r hr
    rw [hiss]
    exact key activity det (by rw [← hkp]; exact hk)

/-- Witness for C7 at a detected one-landmark body. -/
theorem keypoints_empty_iff_no_detection_witness :
    (((frame_output "squat" (some [pad])).2 = []) ↔
      (some [pad] : Option LandmarkSet) = none) ∧
    ((frame_output "squat" (some [pad])).2 = [] → (frame_output "squat" (some [pad])).1 = []) :=
  keypoints_empty_iff_no_detection.1 "squat" (some [pad])
    (by intro lms h; injection h with h2; subst h2; simp)
